import Mathlib

/-!
Shallow embedding of `skyfield/toposlib.py` (the `Topos` class) and proofs about it.

The class computes the position and velocity of a fixed Earth-surface location in the
celestial frame, and the rotation from the celestial frame into the local alt-az frame.
External collaborators that are not part of the file (`terra`, the rotation helpers
`rot_x`/`rot_y`/`rot_z`, the unit wrappers `Angle`/`Distance`, the coordinate normalizer
`_interpret_ltude`, the constants, and the `Geocentric`/`Barycentric` containers) are
either abstracted as parameters or modelled from the specification, as marked on each
definition.  Vectors are `Fin 3 → ℝ` and matrices are `Matrix (Fin 3) (Fin 3) ℝ`;
the numpy contraction `einsum(ij...,j... -> i...)` is matrix-vector multiplication and
`einsum(ij...,jk...,kl... -> il...)` is the triple matrix product, modelled at a single
time instant (the batch axis is numpy vectorization of the same per-instant formula).
-/

namespace Skyfield

open Matrix

noncomputable section

/-- A 3-vector of real numbers (one numpy column of shape (3,)). -/
abbrev Vec3 := Fin 3 → ℝ

/-- A 3×3 real matrix. -/
abbrev Mat3 := Matrix (Fin 3) (Fin 3) ℝ

/-- Modelled from the spec: the constant `tau` imported from `constants.py`
(not under `src/`), the full circle 2π. -/
def tau : ℝ := 2 * Real.pi

/-- Modelled from the spec: the constant `ASEC2RAD` imported from `constants.py`
(not under `src/`): the polar offsets are "converted from arcseconds to radians",
and a full circle is 360·3600 arcseconds. -/
def ASEC2RAD : ℝ := tau / 1296000

/-- Modelled from the spec: `rot_x` imported from `functions.py` (not under `src/`),
the standard right-handed rotation about the X axis (spec §4.1 step 4, §6). -/
def rot_x (θ : ℝ) : Mat3 :=
  !![1, 0, 0;
     0, Real.cos θ, -(Real.sin θ);
     0, Real.sin θ, Real.cos θ]

/-- Modelled from the spec: `rot_y` imported from `functions.py` (not under `src/`),
the standard right-handed rotation about the Y axis. -/
def rot_y (θ : ℝ) : Mat3 :=
  !![Real.cos θ, 0, Real.sin θ;
     0, 1, 0;
     -(Real.sin θ), 0, Real.cos θ]

/-- Modelled from the spec: `rot_z` imported from `functions.py` (not under `src/`),
the standard right-handed rotation about the Z axis. -/
def rot_z (θ : ℝ) : Mat3 :=
  !![Real.cos θ, -(Real.sin θ), 0;
     Real.sin θ, Real.cos θ, 0;
     0, 0, 1]

/-- Row reversal `A[::-1]` of a 3×3 numpy array, as used in
`self.R_lat = rot_y(latitude.radians)[::-1]`. -/
def rowRev (A : Mat3) : Mat3 := A.submatrix ![2, 1, 0] id

/-- Modelled from the spec: the normalized angle abstraction (`skyfield.units.Angle`,
not under `src/`); the core only consumes its `radians` view. -/
structure Angle where
  radians : ℝ

/-- Modelled from the spec: `Angle(degrees=d)` holds d·π/180 radians (public angle
inputs are degrees, internal computation is radians; spec §6 units contract). -/
def Angle.ofDegrees (d : ℝ) : Angle := ⟨d * Real.pi / 180⟩

/-- Modelled from the spec: the distance abstraction (`skyfield.units.Distance`, not
under `src/`), able to report itself in astronomical units; the core only consumes
its `au` view. -/
structure Distance where
  au : ℝ

/-- Modelled from the spec: meters per astronomical unit, used by `Distance(m=...)`. -/
def AU_M : ℝ := 149597870700

/-- Modelled from the spec: `Distance(m=e)` reports `e / AU_M` astronomical units. -/
def Distance.ofM (m : ℝ) : Distance := ⟨m / AU_M⟩

/-- The Earth-orientation state for one instant, consumed as an opaque bundle from the
time system (spec §3 EarthOrientationState): the celestial→terrestrial matrix `M`,
its transpose `MT`, and the sidereal angle `gast` in hours. -/
structure Jd where
  M : Mat3
  MT : Mat3
  gast : ℝ

/-- The type of the trusted terrestrial-transform primitive `terra` from `earthlib.py`
(not under `src/`, out of scope per the spec): maps (latitude radians, longitude
radians, elevation au, gast hours) to an Earth-fixed (position, velocity) pair. -/
abbrev TerraFn := ℝ → ℝ → ℝ → ℝ → Vec3 × Vec3

/-- Embedding of the `Topos` object state after `__init__`: the stored geodetic
parameters, the polar offsets `x`/`y`, the cached latitude matrix `R_lat`, and the
`ephemeris` attribute (`None` until a caller attaches one). -/
structure Topos where
  latitude : Angle
  longitude : Angle
  elevation : Distance
  x : ℝ
  y : ℝ
  R_lat : Mat3
  ephemeris : Option (Jd → Vec3 × Vec3)

/-- Embedding of `Topos._position_and_velocity`: get `(pos, vel)` from `terra`, rotate
both by `jd.MT` (the contraction `einsum(ij...,j... -> i...)`), then, under the truthiness tests
`if self.x:` and `if self.y:`, rotate the position (only) by `rot_y(x * ASEC2RAD)`
and `rot_x(y * ASEC2RAD)`. -/
def Topos.position_and_velocity (terra : TerraFn) (t : Topos) (jd : Jd) :
    Vec3 × Vec3 :=
  let pv := terra t.latitude.radians t.longitude.radians t.elevation.au jd.gast
  let pos := jd.MT.mulVec pv.1
  let vel := jd.MT.mulVec pv.2
  let pos := if t.x ≠ 0 then (rot_y (t.x * ASEC2RAD)).mulVec pos else pos
  let pos := if t.y ≠ 0 then (rot_x (t.y * ASEC2RAD)).mulVec pos else pos
  (pos, vel)

/-- Embedding of `Topos._altaz_rotation`: `R_lon = rot_z(-longitude - gast·τ/24)` and
the triple-product contraction `einsum(ij...,jk...,kl... -> il...)` of `R_lat`, `R_lon`, `M`. -/
def Topos.altaz_rotation (t : Topos) (jd : Jd) : Mat3 :=
  let R_lon := rot_z (- t.longitude.radians - jd.gast * tau / 24)
  t.R_lat * R_lon * jd.M

/-- Embedding of `Topos.compute`: unpack `_position_and_velocity` and return the pair. -/
def Topos.compute (terra : TerraFn) (t : Topos) (jd : Jd) : Vec3 × Vec3 :=
  let pv := Topos.position_and_velocity terra t jd
  (pv.1, pv.2)

/-- Embedding of the segment list `self.segments = [Segment(399, self, self.compute)]`
set in `__init__`: the segment's center code 399 paired with the registered bound
method `self.compute` (the `target=self` back-reference is carried by the binding of
`t` inside the method itself). -/
def Topos.segmentFns (terra : TerraFn) (t : Topos) : List (ℕ × (Jd → Vec3 × Vec3)) :=
  [(399, Topos.compute terra t)]

/-- The result of `Topos.at`: either a `Geocentric` container (no ephemeris attached)
or a `Barycentric` container (ephemeris attached), each with the `altaz_rotation`
attribute attached.  The container classes live in `positionlib.py` (not under
`src/`); modelled from the spec as plain records of the data stored into them. -/
inductive VectorResult where
  | geocentric (position velocity : Vec3) (jd : Jd) (altaz : Mat3)
  | barycentric (position velocity : Vec3) (jd : Jd) (rGCRS vGCRS : Vec3) (altaz : Mat3)

/-- Embedding of `Topos.at`: compute `(tpos_au, tvel_au_per_d)`; with `ephemeris is
None`, wrap them as `Geocentric` with the alt-az rotation attached; otherwise add the
barycentric position/velocity of the Earth body looked up in `self.ephemeris` and wrap as
`Barycentric`, keeping the geocentric offset in `rGCRS`/`vGCRS`. -/
def Topos.atJd (terra : TerraFn) (t : Topos) (jd : Jd) : VectorResult :=
  let pv := Topos.position_and_velocity terra t jd
  match t.ephemeris with
  | none =>
      VectorResult.geocentric pv.1 pv.2 jd (Topos.altaz_rotation t jd)
  | some earthAt =>
      let e := earthAt jd
      VectorResult.barycentric (e.1 + pv.1) (e.2 + pv.2) jd pv.1 pv.2
        (Topos.altaz_rotation t jd)

/-- The dynamic type of a Python value passed as the `latitude` or `longitude`
constructor argument: a `skyfield.units.Angle`, a `str`, a `float`, a `tuple`, or
anything else (including the default `None`). -/
inductive CoordInput where
  | angle (a : Angle)
  | str (s : String)
  | float (f : ℝ)
  | tuple (dms : List ℝ)
  | other

/-- The `TypeError` message raised by `__init__` for an uninterpretable `latitude`. -/
def latitudeErr : String :=
  "please provide either latitude_degrees=<float> or latitude=<skyfield.units.Angle object> with north being positive"

/-- The `TypeError` message raised by `__init__` for an uninterpretable `longitude`. -/
def longitudeErr : String :=
  "please provide either longitude_degrees=<float> or longitude=<skyfield.units.Angle object> with east being positive"

/-- Embedding of one coordinate branch of `Topos.__init__`: prefer the
`*_degrees` keyword; otherwise hand a `str`/`float`/`tuple` to the normalizer
`_interpret_ltude` (from `units.py`, not under `src/`, abstracted as the parameter
`interp`, which may itself fail); otherwise accept an `Angle`; anything else raises
`TypeError` with the given message. -/
def interpretInit (interp : CoordInput → String → Char → Char → Except String Angle)
    (degrees : Option ℝ) (value : CoordInput) (name : String)
    (posChar negChar : Char) (typeErr : String) : Except String Angle :=
  match degrees with
  | some d => Except.ok (Angle.ofDegrees d)
  | none =>
      match value with
      | CoordInput.str s => interp (CoordInput.str s) name posChar negChar
      | CoordInput.float f => interp (CoordInput.float f) name posChar negChar
      | CoordInput.tuple l => interp (CoordInput.tuple l) name posChar negChar
      | CoordInput.angle a => Except.ok a
      | CoordInput.other => Except.error typeErr

/-- Embedding of `Topos.__init__`: validate/normalize latitude then longitude
(failing fast), then store the fields, the cached `R_lat = rot_y(latitude)[::-1]`,
and `ephemeris = None`. -/
def Topos.init (interp : CoordInput → String → Char → Char → Except String Angle)
    (latitude longitude : CoordInput)
    (latitude_degrees longitude_degrees : Option ℝ)
    (elevation_m : ℝ) (x y : ℝ) : Except String Topos :=
  match interpretInit interp latitude_degrees latitude r"latitude" 'N' 'S' latitudeErr with
  | Except.error e => Except.error e
  | Except.ok lat =>
      match interpretInit interp longitude_degrees longitude r"longitude" 'E' 'W'
          longitudeErr with
      | Except.error e => Except.error e
      | Except.ok lon =>
          Except.ok
            { latitude := lat
              longitude := lon
              elevation := Distance.ofM elevation_m
              x := x
              y := y
              R_lat := rowRev (rot_y lat.radians)
              ephemeris := none }

/-- Statement-by-statement translation of `_position_and_velocity` with the object
state (`self`, `jd`) threaded explicitly through every step: the method only binds
locals (`pos`, `vel`), so the state pair flows through each statement unchanged; it
is used to express that the method mutates neither the location nor the orientation
state. -/
def Topos.position_and_velocity_run (terra : TerraFn) (s : Topos × Jd) :
    (Vec3 × Vec3) × (Topos × Jd) :=
  let s0 := s
  let pv := terra s0.1.latitude.radians s0.1.longitude.radians s0.1.elevation.au s0.2.gast
  let s1 := s0
  let pos := s1.2.MT.mulVec pv.1
  let s2 := s1
  let vel := s2.2.MT.mulVec pv.2
  let s3 := s2
  let pos := if s3.1.x ≠ 0 then (rot_y (s3.1.x * ASEC2RAD)).mulVec pos else pos
  let s4 := s3
  let pos := if s4.1.y ≠ 0 then (rot_x (s4.1.y * ASEC2RAD)).mulVec pos else pos
  let s5 := s4
  ((pos, vel), s5)

/-- The horizon rotation exactly as the spec words it (§4.2): `R_lat · R_lon · M`
with `R_lon = rot_z(-(longitude + gast · (2π/24)))`, rightmost factor applying
first. -/
def horizonRotationSpec (t : Topos) (jd : Jd) : Mat3 :=
  t.R_lat * rot_z (-(t.longitude.radians + jd.gast * (2 * Real.pi / 24))) * jd.M

/-- The location with both polar offsets cleared (the zero-offset pipeline). -/
def Topos.zeroOffsets (t : Topos) : Topos := { t with x := 0, y := 0 }

/-- A sample terrestrial-transform primitive used to instantiate theorems. -/
def terraEx : TerraFn := fun _ _ _ _ => (![1, 2, 3], ![4, 5, 6])

/-- A sample observer: zero coordinates and polar offsets, no ephemeris. -/
def toposEx : Topos :=
  { latitude := ⟨0⟩
    longitude := ⟨0⟩
    elevation := ⟨0⟩
    x := 0
    y := 0
    R_lat := rowRev (rot_y 0)
    ephemeris := none }

/-- A sample Earth-orientation state: identity matrices, zero sidereal angle. -/
def jdEx : Jd := { M := 1, MT := 1, gast := 0 }

/-- A sample Earth ephemeris for the `Barycentric` branch of `Topos.at`. -/
def earthAtEx : Jd → Vec3 × Vec3 := fun _ => (![10, 20, 30], ![40, 50, 60])

/-- The sample observer with the sample ephemeris attached. -/
def toposEphEx : Topos := { toposEx with ephemeris := some earthAtEx }

/-- Transpose of a 3×3 matrix literal, entry by entry. -/
theorem transpose_fin_three (a b c d e f g h i : ℝ) :
    (!![a, b, c; d, e, f; g, h, i])ᵀ = !![a, d, g; b, e, h; c, f, i] := by
  ext p q
  fin_cases p <;> fin_cases q <;> rfl

/-- The X-axis rotation is orthogonal. -/
theorem rot_x_orth (θ : ℝ) : (rot_x θ)ᵀ * rot_x θ = 1 := by
  have h := Real.sin_sq_add_cos_sq θ
  rw [rot_x, transpose_fin_three, Matrix.mul_fin_three, Matrix.one_fin_three]
  ext p q
  fin_cases p <;> fin_cases q <;> simp <;> linarith [h]

/-- The Y-axis rotation is orthogonal. -/
theorem rot_y_orth (θ : ℝ) : (rot_y θ)ᵀ * rot_y θ = 1 := by
  have h := Real.sin_sq_add_cos_sq θ
  rw [rot_y, transpose_fin_three, Matrix.mul_fin_three, Matrix.one_fin_three]
  ext p q
  fin_cases p <;> fin_cases q <;> simp [Matrix.vecHead, Matrix.vecTail] <;> linarith [h]

/-- The Z-axis rotation is orthogonal. -/
theorem rot_z_orth (θ : ℝ) : (rot_z θ)ᵀ * rot_z θ = 1 := by
  have h := Real.sin_sq_add_cos_sq θ
  rw [rot_z, transpose_fin_three, Matrix.mul_fin_three, Matrix.one_fin_three]
  ext p q
  fin_cases p <;> fin_cases q <;> simp [Matrix.vecHead, Matrix.vecTail] <;> linarith [h]

/-- Row reversal preserves orthogonality (it permutes the rows, i.e. the summands
of each inner product of columns). -/
theorem rowRev_orth (A : Mat3) (h : Aᵀ * A = 1) : (rowRev A)ᵀ * rowRev A = 1 := by
  have key : (rowRev A)ᵀ * rowRev A = Aᵀ * A := by
    ext i j
    simp [rowRev, Matrix.mul_apply, Matrix.transpose_apply, Fin.sum_univ_three,
      Matrix.submatrix_apply]
    ring
  rw [key, h]

/-- A product of matrices with orthonormal columns has orthonormal columns. -/
theorem mul_orth {A B : Mat3} (hA : Aᵀ * A = 1) (hB : Bᵀ * B = 1) :
    (A * B)ᵀ * (A * B) = 1 := by
  rw [Matrix.transpose_mul, mul_assoc, ← mul_assoc Aᵀ, hA, one_mul, hB]

/-- A proper rotation matrix: orthogonal with determinant one. -/
def IsRotationMatrix (A : Mat3) : Prop := Aᵀ * A = 1 ∧ A.det = 1

/-- C1: `_position_and_velocity` obtains `(posTerr, velTerr)` from
`terra(latitude, longitude, elevation_au, gast)` and rotates both vectors by `MT`
(the velocity always equals `MT · velTerr`); when `M = MT = identity`, `gast = 0` and
both polar offsets are zero, the returned pair is the `terra` output unchanged. -/
theorem position_and_velocity_from_terra (terra : TerraFn) (t : Topos) (jd : Jd) :
    (Topos.position_and_velocity terra t jd).2 =
      jd.MT.mulVec
        (terra t.latitude.radians t.longitude.radians t.elevation.au jd.gast).2
    ∧ (jd.M = 1 → jd.MT = 1 → jd.gast = 0 → t.x = 0 → t.y = 0 →
        Topos.position_and_velocity terra t jd =
          terra t.latitude.radians t.longitude.radians t.elevation.au 0) := by
  constructor
  · simp [Topos.position_and_velocity]
  · intro _ hMT hg hx hy
    simp [Topos.position_and_velocity, hMT, hg, hx, hy, Matrix.one_mulVec]

/-- Witness for C1 at the sample inputs: identity orientation, zero offsets, and the
sample `terra`; the result is the raw `terra` output. -/
theorem position_and_velocity_from_terra_witness :
    jdEx.M = 1 ∧ jdEx.MT = 1 ∧ jdEx.gast = 0 ∧ toposEx.x = 0 ∧ toposEx.y = 0 ∧
      Topos.position_and_velocity terraEx toposEx jdEx = (![1, 2, 3], ![4, 5, 6]) :=
  ⟨rfl, rfl, rfl, rfl, rfl,
    (position_and_velocity_from_terra terraEx toposEx jdEx).2 rfl rfl rfl rfl rfl⟩

/-- C2: `_altaz_rotation` equals the spec-side composition `R_lat · R_lon · M` with
`R_lon` the Z rotation by `-(longitude + gast · (2π/24))`. -/
theorem altaz_rotation_eq_spec (t : Topos) (jd : Jd) :
    Topos.altaz_rotation t jd = horizonRotationSpec t jd := by
  have h : - t.longitude.radians - jd.gast * tau / 24
      = -(t.longitude.radians + jd.gast * (2 * Real.pi / 24)) := by
    rw [tau]; ring
  simp only [Topos.altaz_rotation, horizonRotationSpec, h]

/-- C4: with no ephemeris attached, `Topos.at` returns the `Geocentric` wrap of the
`_position_and_velocity` pair with the alt-az rotation attached; with an ephemeris
attached, it returns the `Barycentric` sum of the Earth state and the geocentric
offset, keeping the offset in `rGCRS`/`vGCRS`, with the alt-az rotation attached. -/
theorem atJd_cases (terra : TerraFn) (t : Topos) (jd : Jd) :
    (t.ephemeris = none →
      Topos.atJd terra t jd =
        VectorResult.geocentric (Topos.position_and_velocity terra t jd).1
          (Topos.position_and_velocity terra t jd).2 jd (Topos.altaz_rotation t jd))
    ∧ (∀ earthAt, t.ephemeris = some earthAt →
        Topos.atJd terra t jd =
          VectorResult.barycentric
            ((earthAt jd).1 + (Topos.position_and_velocity terra t jd).1)
            ((earthAt jd).2 + (Topos.position_and_velocity terra t jd).2) jd
            (Topos.position_and_velocity terra t jd).1
            (Topos.position_and_velocity terra t jd).2
            (Topos.altaz_rotation t jd)) := by
  constructor
  · intro h
    simp [Topos.atJd, h]
  · intro earthAt h
    simp [Topos.atJd, h]

/-- Witness for C4 at the sample inputs, covering both the no-ephemeris and the
attached-ephemeris branch. -/
theorem atJd_cases_witness :
    toposEx.ephemeris = none ∧
      Topos.atJd terraEx toposEx jdEx =
        VectorResult.geocentric (Topos.position_and_velocity terraEx toposEx jdEx).1
          (Topos.position_and_velocity terraEx toposEx jdEx).2 jdEx
          (Topos.altaz_rotation toposEx jdEx) ∧
    toposEphEx.ephemeris = some earthAtEx ∧
      Topos.atJd terraEx toposEphEx jdEx =
        VectorResult.barycentric
          ((earthAtEx jdEx).1 + (Topos.position_and_velocity terraEx toposEphEx jdEx).1)
          ((earthAtEx jdEx).2 + (Topos.position_and_velocity terraEx toposEphEx jdEx).2)
          jdEx
          (Topos.position_and_velocity terraEx toposEphEx jdEx).1
          (Topos.position_and_velocity terraEx toposEphEx jdEx).2
          (Topos.altaz_rotation toposEphEx jdEx) :=
  ⟨rfl, (atJd_cases terraEx toposEx jdEx).1 rfl, rfl,
    (atJd_cases terraEx toposEphEx jdEx).2 earthAtEx rfl⟩

/-- C6: `_position_and_velocity` is a deterministic pure function of the pair
(location, orientation state): two calls on equal states return equal values, the
threaded state comes back unchanged, and the threaded translation computes the same
value as the direct one. -/
theorem position_and_velocity_pure (terra : TerraFn) (s s' : Topos × Jd)
    (h : s = s') :
    (Topos.position_and_velocity_run terra s).1
        = (Topos.position_and_velocity_run terra s').1
    ∧ (Topos.position_and_velocity_run terra s).2 = s
    ∧ (Topos.position_and_velocity_run terra s).1
        = Topos.position_and_velocity terra s.1 s.2 := by
  subst h
  exact ⟨rfl, rfl, rfl⟩

/-- Witness for C6 at the sample inputs. -/
theorem position_and_velocity_pure_witness :
    ((toposEx, jdEx) : Topos × Jd) = (toposEx, jdEx) ∧
      ((Topos.position_and_velocity_run terraEx (toposEx, jdEx)).1
          = (Topos.position_and_velocity_run terraEx (toposEx, jdEx)).1
        ∧ (Topos.position_and_velocity_run terraEx (toposEx, jdEx)).2 = (toposEx, jdEx)
        ∧ (Topos.position_and_velocity_run terraEx (toposEx, jdEx)).1
            = Topos.position_and_velocity terraEx toposEx jdEx) :=
  ⟨rfl, position_and_velocity_pure terraEx (toposEx, jdEx) (toposEx, jdEx) rfl⟩

/-- C9: when both polar offsets are zero the truthiness tests `if self.x:` and
`if self.y:` skip the polar-motion branches and the returned pair is exactly
`(MT · posTerr, MT · velTerr)`. -/
theorem position_and_velocity_zero_offsets (terra : TerraFn) (t : Topos) (jd : Jd)
    (hx : t.x = 0) (hy : t.y = 0) :
    Topos.position_and_velocity terra t jd =
      (jd.MT.mulVec
        (terra t.latitude.radians t.longitude.radians t.elevation.au jd.gast).1,
       jd.MT.mulVec
        (terra t.latitude.radians t.longitude.radians t.elevation.au jd.gast).2) := by
  simp [Topos.position_and_velocity, hx, hy]

/-- Witness for C9 at the sample inputs. -/
theorem position_and_velocity_zero_offsets_witness :
    toposEx.x = 0 ∧ toposEx.y = 0 ∧
      Topos.position_and_velocity terraEx toposEx jdEx =
        (jdEx.MT.mulVec
          (terraEx toposEx.latitude.radians toposEx.longitude.radians
            toposEx.elevation.au jdEx.gast).1,
         jdEx.MT.mulVec
          (terraEx toposEx.latitude.radians toposEx.longitude.radians
            toposEx.elevation.au jdEx.gast).2) :=
  ⟨rfl, rfl, position_and_velocity_zero_offsets terraEx toposEx jdEx rfl rfl⟩

/-- C10: the function registered in the single segment `Segment(399, self,
self.compute)` is `Topos.compute`, and at every instant it returns exactly the
`_position_and_velocity` pair used by `Topos.at`. -/
theorem segment_compute_eq_position_and_velocity (terra : TerraFn) (t : Topos)
    (p : ℕ × (Jd → Vec3 × Vec3)) (hp : p ∈ Topos.segmentFns terra t) (jd : Jd) :
    p.2 jd = Topos.position_and_velocity terra t jd := by
  simp only [Topos.segmentFns, List.mem_singleton] at hp
  subst hp
  simp [Topos.compute]

/-- Witness for C10 at the sample inputs. -/
theorem segment_compute_eq_position_and_velocity_witness :
    ((399, Topos.compute terraEx toposEx) : ℕ × (Jd → Vec3 × Vec3))
        ∈ Topos.segmentFns terraEx toposEx ∧
      Topos.compute terraEx toposEx jdEx
        = Topos.position_and_velocity terraEx toposEx jdEx :=
  ⟨List.mem_singleton.mpr rfl,
    segment_compute_eq_position_and_velocity terraEx toposEx
      (399, Topos.compute terraEx toposEx) (List.mem_singleton.mpr rfl) jdEx⟩

/-- A sample observer with a nonzero `x` polar offset. -/
def toposOffEx : Topos := { toposEx with x := 1 }

/-- C3: the polar-motion branches touch the position only.  For any offsets, the
returned velocity is exactly the velocity of the zero-offset pipeline; the returned
position is the zero-offset position additionally rotated by `rot_y(x·ASEC2RAD)`
when `x` is nonzero and by `rot_x(y·ASEC2RAD)` when `y` is nonzero. -/
theorem polar_motion_position_only (terra : TerraFn) (t : Topos) (jd : Jd) :
    (Topos.position_and_velocity terra t jd).2 =
      (Topos.position_and_velocity terra (Topos.zeroOffsets t) jd).2
    ∧ (t.x ≠ 0 → t.y = 0 →
        (Topos.position_and_velocity terra t jd).1 =
          (rot_y (t.x * ASEC2RAD)).mulVec
            ((Topos.position_and_velocity terra (Topos.zeroOffsets t) jd).1))
    ∧ (t.x = 0 → t.y ≠ 0 →
        (Topos.position_and_velocity terra t jd).1 =
          (rot_x (t.y * ASEC2RAD)).mulVec
            ((Topos.position_and_velocity terra (Topos.zeroOffsets t) jd).1))
    ∧ (t.x ≠ 0 → t.y ≠ 0 →
        (Topos.position_and_velocity terra t jd).1 =
          (rot_x (t.y * ASEC2RAD)).mulVec ((rot_y (t.x * ASEC2RAD)).mulVec
            ((Topos.position_and_velocity terra (Topos.zeroOffsets t) jd).1))) := by
  refine ⟨?_, ?_, ?_, ?_⟩
  · simp [Topos.position_and_velocity, Topos.zeroOffsets]
  · intro hx hy
    simp [Topos.position_and_velocity, Topos.zeroOffsets, hx, hy]
  · intro hx hy
    simp [Topos.position_and_velocity, Topos.zeroOffsets, hx, hy]
  · intro hx hy
    simp [Topos.position_and_velocity, Topos.zeroOffsets, hx, hy]

/-- Witness for C3 at the sample inputs: offset `x = 1`, `y = 0`. -/
theorem polar_motion_position_only_witness :
    toposOffEx.x ≠ 0 ∧ toposOffEx.y = 0 ∧
      (Topos.position_and_velocity terraEx toposOffEx jdEx).2 =
        (Topos.position_and_velocity terraEx (Topos.zeroOffsets toposOffEx) jdEx).2 ∧
      (Topos.position_and_velocity terraEx toposOffEx jdEx).1 =
        (rot_y (toposOffEx.x * ASEC2RAD)).mulVec
          ((Topos.position_and_velocity terraEx (Topos.zeroOffsets toposOffEx) jdEx).1) :=
  ⟨one_ne_zero, rfl,
    (polar_motion_position_only terraEx toposOffEx jdEx).1,
    (polar_motion_position_only terraEx toposOffEx jdEx).2.1 one_ne_zero rfl⟩

/-- C7: for a location whose cached matrix is the constructor's
`rot_y(latitude)[::-1]` and an orientation state with orthogonal `M`, the horizon
rotation is orthogonal: applying it and then its transpose to any celestial-frame
3-vector returns the vector exactly (hence within any tolerance). -/
theorem altaz_rotation_roundtrip (t : Topos) (jd : Jd) (v : Vec3)
    (hR : t.R_lat = rowRev (rot_y t.latitude.radians))
    (hM : jd.Mᵀ * jd.M = 1) :
    (Topos.altaz_rotation t jd)ᵀ.mulVec ((Topos.altaz_rotation t jd).mulVec v) = v := by
  have h1 : t.R_latᵀ * t.R_lat = 1 := by
    rw [hR]; exact rowRev_orth _ (rot_y_orth _)
  have h2 := rot_z_orth (- t.longitude.radians - jd.gast * tau / 24)
  have horth : (Topos.altaz_rotation t jd)ᵀ * Topos.altaz_rotation t jd = 1 := by
    simp only [Topos.altaz_rotation]
    exact mul_orth (mul_orth h1 h2) hM
  rw [Matrix.mulVec_mulVec, horth, Matrix.one_mulVec]

/-- Witness for C7 at the sample inputs and the vector (1, 2, 3). -/
theorem altaz_rotation_roundtrip_witness :
    toposEx.R_lat = rowRev (rot_y toposEx.latitude.radians) ∧
    jdEx.Mᵀ * jdEx.M = 1 ∧
    (Topos.altaz_rotation toposEx jdEx)ᵀ.mulVec
        ((Topos.altaz_rotation toposEx jdEx).mulVec ![1, 2, 3]) = ![1, 2, 3] :=
  ⟨rfl, by simp [jdEx],
    altaz_rotation_roundtrip toposEx jdEx ![1, 2, 3] rfl (by simp [jdEx])⟩

/-- C8 counterexample: already at latitude 0 the cached matrix `rot_y(0)[::-1]`
(which the constructor stores in `R_lat`) has determinant −1 — the row reversal
flips orientation — so it is not a rotation matrix. -/
theorem R_lat_not_rotation_matrix : ¬ IsRotationMatrix (rowRev (rot_y 0)) := by
  intro hrot
  have hd : (rowRev (rot_y 0)).det = -1 := by
    simp [rowRev, rot_y, Matrix.det_fin_three, Matrix.submatrix_apply]
  have h1 := hrot.2
  rw [hd] at h1
  norm_num at h1

/-- C8 amended: the cached latitude matrix of every constructed location is
`rot_y(latitude)[::-1]` — an orthogonal matrix (an improper one: a Y-axis rotation
with its rows reversed), not a proper rotation — computed once at construction from
the latitude alone, stored immutably, and reused unchanged (as the left factor) by
every horizon-frame query. -/
theorem R_lat_cached_orthogonal
    (interp : CoordInput → String → Char → Char → Except String Angle)
    (latv lonv : CoordInput) (latd lond : Option ℝ) (em x y : ℝ) (t : Topos)
    (h : Topos.init interp latv lonv latd lond em x y = Except.ok t) :
    t.R_lat = rowRev (rot_y t.latitude.radians)
    ∧ t.R_latᵀ * t.R_lat = 1
    ∧ ∀ jd, Topos.altaz_rotation t jd =
        t.R_lat * rot_z (- t.longitude.radians - jd.gast * tau / 24) * jd.M := by
  have hR : t.R_lat = rowRev (rot_y t.latitude.radians) := by
    cases hlat : interpretInit interp latd latv r"latitude" 'N' 'S' latitudeErr with
    | error e => simp [Topos.init, hlat] at h
    | ok a =>
      cases hlon : interpretInit interp lond lonv r"longitude" 'E' 'W' longitudeErr with
      | error e => simp [Topos.init, hlat, hlon] at h
      | ok b =>
        simp only [Topos.init, hlat, hlon, Except.ok.injEq] at h
        subst h
        rfl
  refine ⟨hR, ?_, fun jd => rfl⟩
  rw [hR]
  exact rowRev_orth _ (rot_y_orth _)

/-- C5: with no `*_degrees` keyword and a coordinate that is neither an `Angle` nor
a `str`/`float`/`tuple` the normalizer accepts, construction fails fast.  A value
of an unsupported type raises the `TypeError` whose message names the offending
parameter (`latitude`, resp. `longitude`) and spells out the two acceptable forms
(`*_degrees=<float>` and a `skyfield.units.Angle` object); a `str`/`float`/`tuple`
rejected by the normalizer propagates the normalizer's own failure. -/
theorem init_invalid_coordinate
    (interp : CoordInput → String → Char → Char → Except String Angle)
    (em x y : ℝ) :
    (∀ lonv lond, Topos.init interp CoordInput.other lonv none lond em x y
        = Except.error latitudeErr)
    ∧ (∀ a, Topos.init interp (CoordInput.angle a) CoordInput.other none none em x y
        = Except.error longitudeErr)
    ∧ latitudeErr =
        "please provide either " ++ "latitude" ++ "_degrees=<float> or " ++
          "latitude" ++ "=<skyfield.units.Angle object> with north being positive"
    ∧ longitudeErr =
        "please provide either " ++ "longitude" ++ "_degrees=<float> or " ++
          "longitude" ++ "=<skyfield.units.Angle object> with east being positive"
    ∧ (∀ s msg, interp (CoordInput.str s) r"latitude" 'N' 'S' = Except.error msg →
        ∀ lonv lond, Topos.init interp (CoordInput.str s) lonv none lond em x y
          = Except.error msg)
    ∧ (∀ f msg, interp (CoordInput.float f) r"latitude" 'N' 'S' = Except.error msg →
        ∀ lonv lond, Topos.init interp (CoordInput.float f) lonv none lond em x y
          = Except.error msg)
    ∧ (∀ l msg, interp (CoordInput.tuple l) r"latitude" 'N' 'S' = Except.error msg →
        ∀ lonv lond, Topos.init interp (CoordInput.tuple l) lonv none lond em x y
          = Except.error msg) := by
  refine ⟨fun lonv lond => rfl, fun a => rfl, rfl, rfl, ?_, ?_, ?_⟩
  · intro s msg hs lonv lond
    simp [Topos.init, interpretInit, hs]
  · intro f msg hf lonv lond
    simp [Topos.init, interpretInit, hf]
  · intro l msg hl lonv lond
    simp [Topos.init, interpretInit, hl]

/-- Witness for C5: an always-rejecting normalizer, an unsupported latitude value
(the default `None`) giving the `TypeError` message, and a rejected string
propagating the normalizer's error. -/
theorem init_invalid_coordinate_witness :
    (fun _ _ _ _ => (Except.error r"unsupported" : Except String Angle))
        (CoordInput.str r"12 N") "latitude" 'N' 'S' = Except.error r"unsupported"
    ∧ Topos.init (fun _ _ _ _ => Except.error r"unsupported") CoordInput.other
        (CoordInput.angle ⟨0⟩) none none 0 0 0 = Except.error latitudeErr
    ∧ Topos.init (fun _ _ _ _ => Except.error r"unsupported") (CoordInput.str r"12 N")
        (CoordInput.angle ⟨0⟩) none none 0 0 0 = Except.error r"unsupported" :=
  ⟨rfl,
    (init_invalid_coordinate (fun _ _ _ _ => Except.error r"unsupported") 0 0 0).1
      (CoordInput.angle ⟨0⟩) none,
    (init_invalid_coordinate (fun _ _ _ _ => Except.error r"unsupported") 0 0 0).2.2.2.2.1
      r"12 N" r"unsupported" rfl (CoordInput.angle ⟨0⟩) none⟩

/-- Witness for C8 (amended) at a concrete construction. -/
theorem R_lat_cached_orthogonal_witness :
    Topos.init (fun _ _ _ _ => Except.error r"unsupported") (CoordInput.angle ⟨0⟩)
        (CoordInput.angle ⟨0⟩) none none 0 0 0 = Except.ok toposEx
    ∧ toposEx.R_lat = rowRev (rot_y toposEx.latitude.radians)
    ∧ toposEx.R_latᵀ * toposEx.R_lat = 1 := by
  have h : Topos.init (fun _ _ _ _ => Except.error r"unsupported") (CoordInput.angle ⟨0⟩)
      (CoordInput.angle ⟨0⟩) none none 0 0 0 = Except.ok toposEx := by
    simp [Topos.init, interpretInit, toposEx, Distance.ofM]
  have hmain := R_lat_cached_orthogonal (fun _ _ _ _ => Except.error r"unsupported")
    (CoordInput.angle ⟨0⟩) (CoordInput.angle ⟨0⟩) none none 0 0 0 toposEx h
  exact ⟨h, hmain.1, hmain.2.1⟩

end

end Skyfield
